import Mathlib

/-!
Verification of the DatasheetVisualizer repository against its
natural-language specification.

The repository contains two near-duplicate program versions:
* `src/DatasheetVisualizer.py`  — the dark-mode edition, timeout 10 s,
  poll interval 100 ms (namespace `Dark` below);
* `src/DatasheeetVisualizer.py` — the plain edition, timeout 12 s,
  poll interval 150 ms (namespace `Plain` below).

All definitions are shallow embeddings translated from the Python source.
Time is modelled in whole milliseconds (`Nat`); the Python code compares
`monotonic() - start > LOAD_TIMEOUT_S` in seconds, which is the same strict
comparison with both sides scaled by 1000.  GUI objects (message boxes,
status label, `deleteLater` calls) are modelled as observable fields of the
controller state: `msgs` records message-box texts (most recent first),
`status_text` the status-bar label and `released` the handles passed to
`deleteLater`.  Document handles are identified by `Nat` tokens.
-/

namespace DatasheetVisualizer

/-- `os.path.basename` for POSIX-style paths: the component after the last
separator (empty for a trailing separator), computed on the character
list. -/
def basename (p : String) : String :=
  String.mk ((p.data.reverse.takeWhile (fun c => c ≠ '/')).reverse)

/-- The status enumeration of `QPdfDocument.Status` (external toolkit type);
the source only ever compares against `Ready` and `Error`. -/
inductive PdfStatus where
  | null
  | loading
  | ready
  | error
  | unloading
deriving DecidableEq, Repr

/-- `str()` of a `QPdfDocument.Status` value, as interpolated by the plain
version's timeout message. -/
def statusStr : PdfStatus → String
  | .null => "Status.Null"
  | .loading => "Status.Loading"
  | .ready => "Status.Ready"
  | .error => "Status.Error"
  | .unloading => "Status.Unloading"

/-- A note entry `{page, text}` as stored in the notes map. -/
structure Note where
  page : Nat
  text : String
deriving DecidableEq, Repr

/-- The notes store `self.notes_store`: a Python dict from document key to
list of notes, modelled as an insertion-ordered association list with
distinct keys (Python dicts preserve insertion order). -/
abbrev NotesStore : Type := List (String × List Note)

/-- Dict lookup `store.get(k)`: the value at the first (unique) matching
key, if any. -/
def lookupNotes : NotesStore → String → Option (List Note)
  | [], _ => none
  | (k', l) :: t, k => if k' = k then some l else lookupNotes t k

/-- `MainWindow.add_note` core mutation
(`self.notes_store.setdefault(key, []).append(res)`): append the note at
the end of the key's list, creating the list if the key is absent. -/
def addNote : NotesStore → String → Note → NotesStore
  | [], k, n => [(k, [n])]
  | (k', l) :: t, k, n =>
      if k' = k then (k', l ++ [n]) :: t else (k', l) :: addNote t k n

/-- `MainWindow.edit_note` core mutation: the caller checks
`row >= len(current_notes)` and returns unchanged in that case, otherwise
performs `self.notes_store[key][row] = res`.  `List.set` is exactly this
guarded assignment (it leaves the list unchanged out of bounds). -/
def editNote : NotesStore → String → Nat → Note → NotesStore
  | [], _, _, _ => []
  | (k', l) :: t, k, i, n =>
      if k' = k then (k', l.set i n) :: t else (k', l) :: editNote t k i n

/-- `MainWindow.remove_note` core mutation:
`self.notes_store[key].pop(row)` followed by
`if not self.notes_store[key]: del self.notes_store[key]`.
Python's `pop` raises on an out-of-range index; this model is only used
(and only claimed) for in-bounds indices, where `List.eraseIdx` agrees. -/
def removeNote : NotesStore → String → Nat → NotesStore
  | [], _, _ => []
  | (k', l) :: t, k, i =>
      if k' = k then
        (if l.eraseIdx i = [] then t else (k', l.eraseIdx i) :: t)
      else (k', l) :: removeNote t k i

/-- `NoteDialog.__init__`: `self.max_page = max_page or 99999`.  Python's
`or` substitutes 99999 both when `max_page` is `None` and when it is `0`
(a falsy page count from a not-yet-ready document). -/
def noteDialogMaxPage : Option Nat → Nat
  | none => 99999
  | some m => if m = 0 then 99999 else m

/-- The page stored for a requested page value: the spin box clamps its
value into `[1, max_page]` (QSpinBox semantics with minimum 1), and
`NoteDialog.accept` clamps again with
`page = max(1, min(self.spin.value(), self.max_page))`. -/
def storedPage (max_page : Option Nat) (requested : Nat) : Nat :=
  let mp := noteDialogMaxPage max_page
  let spinVal := max 1 (min requested mp)
  max 1 (min spinVal mp)

/-- Controller state shared by both versions: the instance fields of
`MainWindow` that the load protocol reads and writes, plus the observable
GUI effects.  `released` records handles passed to `deleteLater` (most
recent first), `msgs` records message-box texts shown to the user (most
recent first). -/
structure CtrlState where
  pdf_doc : Option Nat
  current_pdf_path : Option String
  pending_doc : Option Nat
  pending_path : Option String
  pending_start : Nat
  timer_on : Bool
  notes_store : NotesStore
  released : List Nat
  msgs : List String
  status_text : String
deriving DecidableEq, Repr

/-- Controller events: an open request (`MainWindow.open_pdf` with a fresh
handle `h` for the new `QPdfDocument`, called at time `t`; `loadRes` is
`none` when `new_doc.load` raises and otherwise the status it returns) or
a poll-timer tick (`MainWindow._poll_load_status` at time `t`, with `st`
the status the pending document reports). -/
inductive Ev where
  | openReq (h : Nat) (path : String) (t : Nat) (loadRes : Option PdfStatus)
  | tick (t : Nat) (st : PdfStatus)
deriving DecidableEq, Repr

/-- The handle freshly created by an event, if any. -/
def Ev.newHandle : Ev → Option Nat
  | .openReq h _ _ _ => some h
  | .tick _ _ => none

namespace Dark

/-- `LOAD_TIMEOUT_S = 10.0` of `DatasheetVisualizer.py`, in milliseconds. -/
def timeoutMs : Nat := 10000

/-- `POLL_INTERVAL_MS = 100` of `DatasheetVisualizer.py`. -/
def intervalMs : Nat := 100

/-- `MainWindow._finalize_new_doc` of `DatasheetVisualizer.py`: install the
new document as current, release the previous current document, clear the
pending slot and update the status label.  (`load_notes_for_current_pdf`
and `update_status_page` only rebuild widgets / the status line from the
new state; the status line recomputation is modelled separately as
`darkUpdateStatus`.) -/
def finalize (s : CtrlState) (h : Nat) (path : String) : CtrlState :=
  { s with
      pdf_doc := some h
      current_pdf_path := some path
      released :=
        match s.pdf_doc with
        | some old => old :: s.released
        | none => s.released
      pending_doc := none
      status_text := "Opened: " ++ basename path }

/-- `MainWindow.open_pdf` of `DatasheetVisualizer.py`: stop the poll timer,
`deleteLater` any pending document, set the loading status text, install
the fresh handle in the pending slot with the current time, then call
`load`.  A synchronous exception (`loadRes = none`) shows a critical
message box and returns — the fresh handle stays in the pending slot.  An
immediate `Ready` finalizes; any other status starts the poll timer. -/
def openPdf (s : CtrlState) (h : Nat) (path : String) (t : Nat)
    (loadRes : Option PdfStatus) : CtrlState :=
  let s1 : CtrlState :=
    { s with
        timer_on := false
        released :=
          match s.pending_doc with
          | some p => p :: s.released
          | none => s.released
        pending_doc := none }
  let s2 : CtrlState :=
    { s1 with
        status_text := "Loading: " ++ basename path ++ "..."
        pending_doc := some h
        pending_path := some path
        pending_start := t }
  match loadRes with
  | none => { s2 with msgs := ("Load failed: " ++ path) :: s2.msgs }
  | some st =>
      if st = .ready then finalize s2 h path
      else { s2 with timer_on := true }

/-- `MainWindow._poll_load_status` of `DatasheetVisualizer.py`: with no
pending document, stop the timer; on `Ready`, stop the timer and finalize;
on `Error`, stop the timer and drop the pending slot (no message, no
`deleteLater`); past the 10 s deadline, stop the timer, `deleteLater` the
pending document and drop the slot (no message); otherwise stay pending. -/
def poll (s : CtrlState) (t : Nat) (st : PdfStatus) : CtrlState :=
  match s.pending_doc with
  | none => { s with timer_on := false }
  | some d =>
      if st = .ready then
        finalize { s with timer_on := false } d (s.pending_path.getD "")
      else if st = .error then
        { s with timer_on := false, pending_doc := none }
      else if timeoutMs < t - s.pending_start then
        { s with
            timer_on := false
            released := d :: s.released
            pending_doc := none }
      else s

/-- One controller step of `DatasheetVisualizer.py`. -/
def step (s : CtrlState) (e : Ev) : CtrlState :=
  match e with
  | .openReq h path t res => openPdf s h path t res
  | .tick t st => poll s t st

/-- Run a sequence of events. -/
def run (s : CtrlState) (evs : List Ev) : CtrlState :=
  evs.foldl step s

end Dark

namespace Plain

/-- `LOAD_TIMEOUT_S = 12.0` of `DatasheeetVisualizer.py`, in milliseconds. -/
def timeoutMs : Nat := 12000

/-- `POLL_INTERVAL_MS = 150` of `DatasheeetVisualizer.py`. -/
def intervalMs : Nat := 150

/-- The timeout message box text of `DatasheeetVisualizer.py`:
`f"PDF load timeout after {LOAD_TIMEOUT_S}s (status={sname}). File: {path}"`. -/
def timeoutMsg (st : PdfStatus) (path : String) : String :=
  "PDF load timeout after 12.0s (status=" ++ statusStr st ++ "). File: " ++ path

/-- `MainWindow._finalize_new_doc` of `DatasheeetVisualizer.py` (the
non-raising path: the guarded widget calls inside it are toolkit UI calls
assumed not to throw): install the new document, reload notes, clear both
pending fields, `deleteLater` the old document and set the status label. -/
def finalize (s : CtrlState) (h : Nat) (path : String) : CtrlState :=
  { s with
      pdf_doc := some h
      current_pdf_path := some path
      released :=
        match s.pdf_doc with
        | some old => old :: s.released
        | none => s.released
      pending_doc := none
      pending_path := none
      status_text := "✅ Opened: " ++ basename path }

/-- `MainWindow.open_pdf` of `DatasheeetVisualizer.py`: install the fresh
handle in the pending slot (without stopping the timer or releasing a
previously pending handle), then call `load`.  A synchronous exception
shows a message box, `deleteLater`s the fresh handle and clears both
pending fields.  An immediate `Ready` finalizes; otherwise set the opening
status text and start the poll timer. -/
def openPdf (s : CtrlState) (h : Nat) (path : String) (t : Nat)
    (loadRes : Option PdfStatus) : CtrlState :=
  let s1 : CtrlState :=
    { s with
        pending_doc := some h
        pending_path := some path
        pending_start := t }
  match loadRes with
  | none =>
      { s1 with
          msgs := ("Load call failed: " ++ path) :: s1.msgs
          released := h :: s1.released
          pending_doc := none
          pending_path := none }
  | some st =>
      if st = .ready then finalize s1 h path
      else
        { s1 with
            status_text := "Opening: " ++ basename path
            timer_on := true }

/-- `MainWindow._poll_load_status` of `DatasheeetVisualizer.py`: with no
pending document or path, stop the timer; on `Ready`, stop the timer and
finalize; past the 12 s deadline, stop the timer, show the timeout message
box, `deleteLater` the pending document, clear both pending fields and set
the error status text; otherwise keep polling.  There is no explicit
`Error`-status branch in this version. -/
def poll (s : CtrlState) (t : Nat) (st : PdfStatus) : CtrlState :=
  match s.pending_doc, s.pending_path with
  | some d, some path =>
      if st = .ready then
        finalize { s with timer_on := false } d path
      else if timeoutMs < t - s.pending_start then
        { s with
            timer_on := false
            msgs := timeoutMsg st path :: s.msgs
            released := d :: s.released
            pending_doc := none
            pending_path := none
            status_text := "Error opening PDF" }
      else s
  | _, _ => { s with timer_on := false }

/-- One controller step of `DatasheeetVisualizer.py`. -/
def step (s : CtrlState) (e : Ev) : CtrlState :=
  match e with
  | .openReq h path t res => openPdf s h path t res
  | .tick t st => poll s t st

/-- Run a sequence of events. -/
def run (s : CtrlState) (evs : List Ev) : CtrlState :=
  evs.foldl step s

end Plain

/-- `MainWindow._get_store_key` of `DatasheetVisualizer.py`:
`if not path or not self.root_folder: return path`, then
`try: return os.path.relpath(path, self.root_folder) except ValueError:
return path`.  The Python-library call `os.path.relpath` is passed in as
`relp` (returning `none` when it raises `ValueError`, as it can on Windows
for paths on different drives). -/
def get_store_key (relp : String → String → Option String)
    (root path : String) : String :=
  if path = "" ∨ root = "" then path
  else
    match relp path root with
    | some r => r
    | none => path

/-- The note key used by `DatasheeetVisualizer.py`: this version has no
`_get_store_key`; `load_notes_for_current_pdf`, `add_note`, `edit_note`,
`remove_note` and `on_note_clicked` all index `self.notes_store` directly
with `self.current_pdf_path`, i.e. the absolute document path, regardless
of the configured root. -/
def plainStoreKey (path : String) : String := path

/-- `MainWindow.update_status_page` of `DatasheetVisualizer.py`:
returns `none` when no document is loaded or the page count is 0 (the
label is left untouched); otherwise the status line
`f"Page {min(max(1, current), total)} / {total} — {basename}"` where
`current = int((value / maximum) * total) + 1` if the scrollbar maximum is
positive, else 1.  The float computation is modelled by exact rational
arithmetic; `int()` on a non-negative value is the floor, so
`current = value * total / maxv + 1` in `Nat` division. -/
def darkUpdateStatus (total value maxv : Nat) (path : String) :
    Option String :=
  if total = 0 then none
  else
    let current := if 0 < maxv then value * total / maxv + 1 else 1
    some ("Page " ++ toString (min (max 1 current) total) ++ " / " ++
      toString total ++ " — " ++ basename path)

/-- `MainWindow._breadcrumb` of `DatasheeetVisualizer.py`: the root-relative
path with separators replaced by " / ", falling back to the basename when
no root is set or `relpath` raises. -/
def plainBreadcrumb (relp : String → String → Option String)
    (root path : String) : String :=
  if root = "" then basename path
  else
    match relp path root with
    | some rel => String.intercalate " / " (rel.splitOn "/")
    | none => basename path

/-- `MainWindow.update_status_page` of `DatasheeetVisualizer.py`:
"Ready" when no document or `pageCount() <= 0`; otherwise the current
0-based page is `pdf_view.currentPage()` when it yields a non-negative
value (`curRes`), else `int((value / max(1, maximum)) * total)`, clamped by
`max(0, min(total - 1, cur))`, and the label is
`f"✅ Ready: {breadcrumb} — Page {cur+1}/{total}"`. -/
def plainUpdateStatus (curRes : Option Nat) (total value maxv : Nat)
    (bc : String) : String :=
  if total = 0 then "Ready"
  else
    let cur :=
      match curRes with
      | some c => c
      | none => value * total / max 1 maxv
    let cur2 := min (total - 1) cur
    "✅ Ready: " ++ bc ++ " — Page " ++ toString (cur2 + 1) ++ "/" ++
      toString total

/-- A note-click navigation action on the viewport. -/
inductive NavAction where
  | jumpTo (pageIdx : Nat)
  | scrollTo (value : Nat)
  | noAction
deriving DecidableEq, Repr

/-- `MainWindow.on_note_clicked` of `DatasheetVisualizer.py`, navigation
part (reached with a current document and an in-range row): when
`pageCount() > 0`, `vsb.setValue(int(((page - 1) / total) * vsb.maximum()))`
— exact rational arithmetic gives `(page - 1) * maxv / total`.  No direct
page-jump is attempted and no status refresh is scheduled (the label only
updates through the scrollbar's `valueChanged` signal). -/
def darkNoteClick (page total maxv : Nat) : NavAction :=
  if 0 < total then .scrollTo ((page - 1) * maxv / total)
  else .noAction

/-- `MainWindow.on_note_clicked` of `DatasheeetVisualizer.py`, navigation
part: try `pdf_view.setPage(page - 1)` (`setPageOk` tells whether the
toolkit exposes it); on failure fall back, when `pageCount() > 0`, to
`frac = (page - 1) / max(1, pageCount() - 1)` and
`vsb.setValue(int(frac * vsb.maximum()))`.  The second component records
that `QTimer.singleShot(60, self.update_status_page)` is always scheduled
afterwards. -/
def plainNoteClick (setPageOk : Bool) (page total maxv : Nat) :
    NavAction × Bool :=
  (if setPageOk then .jumpTo (page - 1)
   else if 0 < total then
     .scrollTo ((page - 1) * maxv / max 1 (total - 1))
   else .noAction,
   true)

/-- A JSON value, the result type of `json.loads`. -/
inductive JVal where
  | jnull
  | jbool (b : Bool)
  | jnum (n : Int)
  | jstr (s : String)
  | jarr (xs : List JVal)
  | jobj (fields : List (String × JVal))

/-- Field lookup in a JSON object's field list (Python `dict.get`). -/
def lookupField : List (String × JVal) → String → Option JVal
  | [], _ => none
  | (k', v) :: t, k => if k' = k then some v else lookupField t k

/-- Python `cfg.get(k)` on the parsed config when it is an object. -/
def jget (j : JVal) (k : String) : Option JVal :=
  match j with
  | .jobj fs => lookupField fs k
  | _ => none

/-- `load_config` (both versions): if the config file exists and reads
(`readResult = some contents`), return `json.loads(contents)`; any
exception — missing file, read failure, or `json.loads` raising on
malformed JSON (`parse contents = none`) — is caught and yields `{}`.
The function is total: it never raises. -/
def load_config (readResult : Option String)
    (parse : String → Option JVal) : JVal :=
  match readResult with
  | none => .jobj []
  | some contents =>
      match parse contents with
      | some j => j
      | none => .jobj []

/-- `MainWindow.__init__` startup root selection of
`DatasheetVisualizer.py`:
`if self.root_folder and not os.path.isdir(self.root_folder):
self.root_folder = ""`, then if the root is empty and `./data` is a
directory, install its absolute path and save the config.  Arguments:
the persisted `root_folder` string, whether it is an existing directory,
whether `os.path.join(os.getcwd(), "data")` is a directory, and its
absolute path.  Returns the resulting root and whether `save_config` was
called. -/
def darkStartupRoot (persisted : String) (persistedIsDir dataIsDir : Bool)
    (dataAbs : String) : String × Bool :=
  let r := if persisted ≠ "" ∧ ¬persistedIsDir then "" else persisted
  if r = "" then
    if dataIsDir then (dataAbs, true) else (r, false)
  else (r, false)

/-- `MainWindow.__init__` startup root selection of
`DatasheeetVisualizer.py`:
`if not self.root_folder or not os.path.isdir(self.root_folder):` then
install `./data` if it is a directory (saving the config) else set the
root to `""`; a valid persisted root is kept unchanged. -/
def plainStartupRoot (persisted : String) (persistedIsDir dataIsDir : Bool)
    (dataAbs : String) : String × Bool :=
  if persisted = "" ∨ ¬persistedIsDir then
    if dataIsDir then (dataAbs, true) else ("", false)
  else (persisted, false)

/-! ### Helper lemmas about the notes store -/

lemma lookupNotes_eq_none (s : NotesStore) (k : String)
    (h : k ∉ s.map Prod.fst) : lookupNotes s k = none := by
  induction s with
  | nil => rfl
  | cons hd t ih =>
      obtain ⟨k2, l⟩ := hd
      simp only [List.map_cons, List.mem_cons] at h
      push_neg at h
      have hne : k2 ≠ k := Ne.symm h.1
      simp [lookupNotes, hne, ih h.2]

lemma lookupNotes_addNote_self (s : NotesStore) (k : String) (n : Note) :
    lookupNotes (addNote s k n) k =
      some ((lookupNotes s k).getD [] ++ [n]) := by
  induction s with
  | nil => simp [addNote, lookupNotes]
  | cons hd t ih =>
      obtain ⟨k2, l⟩ := hd
      by_cases hk : k2 = k
      · subst hk; simp [addNote, lookupNotes]
      · simp [addNote, lookupNotes, hk, ih]

lemma lookupNotes_addNote_ne (s : NotesStore) (k k2 : String) (n : Note)
    (h : k2 ≠ k) :
    lookupNotes (addNote s k n) k2 = lookupNotes s k2 := by
  have hne : k ≠ k2 := Ne.symm h
  induction s with
  | nil => simp [addNote, lookupNotes, hne]
  | cons hd t ih =>
      obtain ⟨k3, l⟩ := hd
      by_cases hk : k3 = k
      · subst hk; simp [addNote, lookupNotes, hne]
      · simp [addNote, lookupNotes, hk, ih]

lemma lookupNotes_editNote_self (s : NotesStore) (k : String) (i : Nat)
    (n : Note) :
    lookupNotes (editNote s k i n) k =
      (lookupNotes s k).map (fun l => l.set i n) := by
  induction s with
  | nil => simp [editNote, lookupNotes]
  | cons hd t ih =>
      obtain ⟨k2, l⟩ := hd
      by_cases hk : k2 = k
      · subst hk; simp [editNote, lookupNotes]
      · simp [editNote, lookupNotes, hk, ih]

lemma lookupNotes_editNote_ne (s : NotesStore) (k k2 : String) (i : Nat)
    (n : Note) (h : k2 ≠ k) :
    lookupNotes (editNote s k i n) k2 = lookupNotes s k2 := by
  have hne : k ≠ k2 := Ne.symm h
  induction s with
  | nil => simp [editNote, lookupNotes]
  | cons hd t ih =>
      obtain ⟨k3, l⟩ := hd
      by_cases hk : k3 = k
      · subst hk; simp [editNote, lookupNotes, hne]
      · simp [editNote, lookupNotes, hk, ih]

lemma lookupNotes_removeNote_self (s : NotesStore) (k : String) (i : Nat)
    (hnd : (s.map Prod.fst).Nodup) :
    lookupNotes (removeNote s k i) k =
      match lookupNotes s k with
      | none => none
      | some l => if l.eraseIdx i = [] then none else some (l.eraseIdx i) := by
  induction s with
  | nil => simp [removeNote, lookupNotes]
  | cons hd t ih =>
      obtain ⟨k2, l⟩ := hd
      simp only [List.map_cons, List.nodup_cons] at hnd
      by_cases hk : k2 = k
      · subst hk
        by_cases he : l.eraseIdx i = []
        · simp [removeNote, lookupNotes, he,
            lookupNotes_eq_none t k2 hnd.1]
        · simp [removeNote, lookupNotes, he]
      · simp [removeNote, lookupNotes, hk, ih hnd.2]

lemma lookupNotes_removeNote_ne (s : NotesStore) (k k2 : String) (i : Nat)
    (h : k2 ≠ k) (hnd : (s.map Prod.fst).Nodup) :
    lookupNotes (removeNote s k i) k2 = lookupNotes s k2 := by
  have hne : k ≠ k2 := Ne.symm h
  induction s with
  | nil => simp [removeNote, lookupNotes]
  | cons hd t ih =>
      obtain ⟨k3, l⟩ := hd
      simp only [List.map_cons, List.nodup_cons] at hnd
      by_cases hk : k3 = k
      · subst hk
        by_cases he : l.eraseIdx i = [] <;>
          simp [removeNote, lookupNotes, he, hne]
      · simp [removeNote, lookupNotes, hk, ih hnd.2]

lemma noteDialogMaxPage_pos (mp : Option Nat) : 1 ≤ noteDialogMaxPage mp := by
  cases mp with
  | none => simp [noteDialogMaxPage]
  | some m =>
      by_cases hm : m = 0 <;> simp [noteDialogMaxPage, hm]
      omega

lemma storedPage_eq_clamp (mp : Option Nat) (r : Nat) :
    storedPage mp r = max 1 (min r (noteDialogMaxPage mp)) := by
  have h := noteDialogMaxPage_pos mp
  simp only [storedPage]
  omega

/-! ### Claim theorems -/

/-- C4: Note round-trip.  On a notes map with distinct keys (a Python
dict): `add(p, t)` followed by `list()` yields the previous list with the
new note appended at the end (creating the list if the key was absent) and
leaves other keys unchanged; `edit(i, p2, t2)` with `i` in bounds replaces
exactly the entry at index `i`, leaving every other index and every other
key unchanged; `remove(i)` with `i` in bounds deletes exactly the entry at
index `i` (the list becomes `take i ++ drop (i+1)`), and when the
resulting list is empty the key is removed from the backing map entirely. -/
theorem note_store_roundtrip (s : NotesStore) (k : String) (n n2 : Note)
    (i : Nat) (l : List Note) (hnd : (s.map Prod.fst).Nodup) :
    lookupNotes (addNote s k n) k = some ((lookupNotes s k).getD [] ++ [n])
    ∧ (∀ k2, k2 ≠ k → lookupNotes (addNote s k n) k2 = lookupNotes s k2)
    ∧ (lookupNotes s k = some l → i < l.length →
        lookupNotes (editNote s k i n2) k = some (l.set i n2)
        ∧ (l.set i n2).get? i = some n2
        ∧ (∀ j, j ≠ i → (l.set i n2).get? j = l.get? j))
    ∧ (∀ k2, k2 ≠ k → lookupNotes (editNote s k i n2) k2 = lookupNotes s k2)
    ∧ (lookupNotes s k = some l → i < l.length →
        lookupNotes (removeNote s k i) k =
          (if l.eraseIdx i = [] then none else some (l.eraseIdx i))
        ∧ l.eraseIdx i = l.take i ++ l.drop (i + 1))
    ∧ (∀ k2, k2 ≠ k →
        lookupNotes (removeNote s k i) k2 = lookupNotes s k2) := by
  refine ⟨lookupNotes_addNote_self s k n,
    fun k2 h => lookupNotes_addNote_ne s k k2 n h,
    fun hl hi => ⟨?_, ?_, fun j hj => ?_⟩,
    fun k2 h => lookupNotes_editNote_ne s k k2 i n2 h,
    fun hl hi => ⟨?_, List.eraseIdx_eq_take_drop_succ l i⟩,
    fun k2 h => lookupNotes_removeNote_ne s k k2 i h hnd⟩
  · rw [lookupNotes_editNote_self, hl]; rfl
  · exact List.get?_set_eq_of_lt n2 hi
  · exact List.get?_set_ne n2 l (Ne.symm hj)
  · rw [lookupNotes_removeNote_self s k i hnd, hl]

/-- Witness for `note_store_roundtrip` at a concrete store. -/
theorem note_store_roundtrip_witness :
    lookupNotes
      (addNote [("a.pdf", [Note.mk 1 "x"])] "a.pdf" (Note.mk 2 "y"))
      "a.pdf" = some [Note.mk 1 "x", Note.mk 2 "y"] := by
  have h := note_store_roundtrip [("a.pdf", [Note.mk 1 "x"])] "a.pdf"
    (Note.mk 2 "y") (Note.mk 3 "z") 0 [Note.mk 1 "x"] (by decide)
  rw [h.1]
  decide

/-- C5 counterexample: with no page count known, the stored page is capped
at 99999 (the dialog's substituted maximum), so the claimed clamping to
`[1, +inf)` — "only the lower bound 1 is enforced" — fails at the
requested page 100000. -/
theorem page_clamp_counterexample :
    storedPage none 100000 = 99999 ∧ storedPage none 100000 ≠ 100000 := by
  decide

/-- C5 amended: for every requested page value, the stored page is clamped
to `[1, pageCount]` when the document's page count is known and positive
(so `add(page=0)` with `pageCount=10` stores 1 and `add(page=999)` stores
10), and is clamped to `[1, 99999]` when no page count is known (the
dialog substitutes 99999 as the maximum; a page count of 0 is treated the
same way). -/
theorem page_clamp_amended (m r : Nat) (hm : 0 < m) :
    storedPage (some m) r = max 1 (min r m)
    ∧ storedPage none r = max 1 (min r 99999)
    ∧ storedPage (some 0) r = max 1 (min r 99999)
    ∧ storedPage (some 10) 0 = 1
    ∧ storedPage (some 10) 999 = 10 := by
  have hm' : m ≠ 0 := Nat.pos_iff_ne_zero.mp hm
  refine ⟨?_, ?_, ?_, by decide, by decide⟩
  · rw [storedPage_eq_clamp]; simp [noteDialogMaxPage, hm']
  · rw [storedPage_eq_clamp]; simp [noteDialogMaxPage]
  · rw [storedPage_eq_clamp]; simp [noteDialogMaxPage]

/-- Witness for `page_clamp_amended` at `pageCount = 10`. -/
theorem page_clamp_witness : storedPage (some 10) 999 = 10 :=
  (page_clamp_amended 10 999 (by decide)).2.2.2.2

/-- C6 counterexample: with root "/root" configured and the relative
computation succeeding (os.path.relpath("/root/sub/doc.pdf", "/root") =
"sub/doc.pdf"), the 12 s version still keys the note store by the
absolute path — it has no relative-key computation at all — so the claim
that `keyFor` returns the root-relative path whenever a root is
configured and the computation succeeds fails on that version. -/
theorem store_key_counterexample :
    plainStoreKey "/root/sub/doc.pdf" = "/root/sub/doc.pdf"
    ∧ get_store_key (fun _ _ => some "sub/doc.pdf") "/root"
        "/root/sub/doc.pdf" = "sub/doc.pdf"
    ∧ plainStoreKey "/root/sub/doc.pdf" ≠ "sub/doc.pdf" := by
  refine ⟨rfl, by decide, by decide⟩

/-- C6 amended: in the 10 s version, `_get_store_key` returns the relative
path computed against the configured root whenever a root is configured
and the relative computation succeeds, and otherwise the path it was
given (the absolute document path); in the 12 s version the note key is
always the absolute document path, even when a root is configured.  Both
are pure functions of the relative-path routine, the root and the path,
so repeated calls — and restarts with the same persisted root — yield the
same key. -/
theorem store_key_characterization
    (relp : String → String → Option String) (root path : String) :
    (∀ r, root ≠ "" → relp path root = some r →
      get_store_key relp root path = (if path = "" then path else r))
    ∧ ((root = "" ∨ relp path root = none) →
      get_store_key relp root path = path)
    ∧ (∀ root2 path2, root2 = root → path2 = path →
      get_store_key relp root2 path2 = get_store_key relp root path)
    ∧ (∀ path2, plainStoreKey path2 = path2) := by
  refine ⟨fun r hroot hrel => ?_, fun h => ?_, fun root2 path2 h2 h3 => ?_,
    fun path2 => rfl⟩
  · by_cases hp : path = ""
    · simp [get_store_key, hp]
    · simp [get_store_key, hp, hroot, hrel]
  · rcases h with h | h
    · simp [get_store_key, h]
    · by_cases hp : path = ""
      · simp [get_store_key, hp]
      · by_cases hroot : root = ""
        · simp [get_store_key, hroot]
        · simp [get_store_key, hp, hroot, h]
  · rw [h2, h3]

/-- Witness for `store_key_characterization` with a sample relative-path
routine. -/
theorem store_key_witness :
    get_store_key (fun _ _ => some "sub/doc.pdf") "/root" "/root/sub/doc.pdf"
      = "sub/doc.pdf" := by
  have h := (store_key_characterization (fun _ _ => some "sub/doc.pdf")
    "/root" "/root/sub/doc.pdf").1 "sub/doc.pdf" (by decide) rfl
  rw [h]
  decide

/-- C9: Config load tolerance.  `load_config` returns the parsed JSON
value when the config file exists, reads and parses, and the empty object
when the file is missing/unreadable or its content is malformed JSON; it
is a total function (never raises), and on the empty object the notes map
defaults to empty and the root folder to the empty string
(`cfg.get("notes", {})` and `cfg.get("root_folder", "")`). -/
theorem config_load_tolerant (parse : String → Option JVal)
    (contents : String) (j : JVal) :
    load_config none parse = JVal.jobj []
    ∧ (parse contents = none →
        load_config (some contents) parse = JVal.jobj [])
    ∧ (parse contents = some j → load_config (some contents) parse = j)
    ∧ (jget (JVal.jobj []) "notes").getD (JVal.jobj []) = JVal.jobj []
    ∧ (jget (JVal.jobj []) "root_folder").getD (JVal.jstr "")
        = JVal.jstr "" := by
  refine ⟨rfl, fun h => ?_, fun h => ?_, rfl, rfl⟩
  · simp [load_config, h]
  · simp [load_config, h]

/-- Witness for `config_load_tolerant`: a malformed config file yields the
empty object. -/
theorem config_load_witness :
    load_config (some "not json") (fun _ => none) = JVal.jobj [] :=
  (config_load_tolerant (fun _ => none) "not json" (JVal.jobj [])).2.1 rfl

/-- C10: Startup root auto-selection.  In both versions: when the
persisted root is unset or not an existing directory, then if `./data` is
a directory its absolute path is installed as the root and the config is
saved immediately, and otherwise the root ends up unset (empty string)
with no save. -/
theorem startup_root_auto (persisted dataAbs : String) (pd dd : Bool)
    (hinv : persisted = "" ∨ pd = false) :
    (dd = true →
      darkStartupRoot persisted pd dd dataAbs = (dataAbs, true)
      ∧ plainStartupRoot persisted pd dd dataAbs = (dataAbs, true))
    ∧ (dd = false →
      darkStartupRoot persisted pd dd dataAbs = ("", false)
      ∧ plainStartupRoot persisted pd dd dataAbs = ("", false)) := by
  constructor
  · rintro rfl
    rcases hinv with h | h
    · subst h
      constructor <;> simp [darkStartupRoot, plainStartupRoot]
    · subst h
      by_cases hp : persisted = "" <;>
        constructor <;> simp [darkStartupRoot, plainStartupRoot, hp]
  · rintro rfl
    rcases hinv with h | h
    · subst h
      constructor <;> simp [darkStartupRoot, plainStartupRoot]
    · subst h
      by_cases hp : persisted = "" <;>
        constructor <;> simp [darkStartupRoot, plainStartupRoot, hp]

/-- Witness for `startup_root_auto`: unset persisted root, existing
`./data`. -/
theorem startup_root_witness :
    darkStartupRoot "" false true "/cwd/data" = ("/cwd/data", true) :=
  ((startup_root_auto "" "/cwd/data" false true (Or.inl rfl)).1 rfl).1

/-! ### Controller helper lemmas -/

lemma darkOpenPdf_no_stale (a h : Nat) (s : CtrlState) (path : String)
    (t : Nat) (res : Option PdfStatus)
    (h1 : s.pdf_doc ≠ some a) (hha : h ≠ a) :
    (Dark.openPdf s h path t res).pdf_doc ≠ some a
    ∧ (Dark.openPdf s h path t res).pending_doc ≠ some a := by
  cases res with
  | none =>
      constructor
      · simpa [Dark.openPdf] using h1
      · simpa [Dark.openPdf] using hha
  | some st =>
      by_cases hst : st = PdfStatus.ready
      · subst hst
        constructor
        · simpa [Dark.openPdf, Dark.finalize] using hha
        · simp [Dark.openPdf, Dark.finalize]
      · constructor
        · simpa [Dark.openPdf, hst] using h1
        · simpa [Dark.openPdf, hst] using hha

lemma darkPoll_no_stale (a : Nat) (s : CtrlState) (t : Nat)
    (st : PdfStatus) (h1 : s.pdf_doc ≠ some a)
    (h2 : s.pending_doc ≠ some a) :
    (Dark.poll s t st).pdf_doc ≠ some a
    ∧ (Dark.poll s t st).pending_doc ≠ some a := by
  cases hp : s.pending_doc with
  | none => exact ⟨by simpa [Dark.poll, hp] using h1, by simp [Dark.poll, hp]⟩
  | some d =>
      have hda : d ≠ a := fun hh => h2 (by rw [hp, hh])
      by_cases hr : st = PdfStatus.ready
      · subst hr
        constructor
        · simpa [Dark.poll, hp, Dark.finalize] using hda
        · simp [Dark.poll, hp, Dark.finalize]
      · by_cases he : st = PdfStatus.error
        · subst he
          exact ⟨by simpa [Dark.poll, hp, hr] using h1,
            by simp [Dark.poll, hp, hr]⟩
        · by_cases hto : Dark.timeoutMs < t - s.pending_start
          · exact ⟨by simpa [Dark.poll, hp, hr, he, hto] using h1,
              by simp [Dark.poll, hp, hr, he, hto]⟩
          · exact ⟨by simpa [Dark.poll, hp, hr, he, hto] using h1,
              by simpa [Dark.poll, hp, hr, he, hto] using h2⟩

lemma darkStep_no_stale (a : Nat) (s : CtrlState) (e : Ev)
    (h1 : s.pdf_doc ≠ some a) (h2 : s.pending_doc ≠ some a)
    (h3 : e.newHandle ≠ some a) :
    (Dark.step s e).pdf_doc ≠ some a
    ∧ (Dark.step s e).pending_doc ≠ some a := by
  cases e with
  | openReq h path t res =>
      have hha : h ≠ a := fun hh => h3 (by simp [Ev.newHandle, hh])
      exact darkOpenPdf_no_stale a h s path t res h1 hha
  | tick t st => exact darkPoll_no_stale a s t st h1 h2

lemma darkRun_no_stale (a : Nat) (s : CtrlState) (evs : List Ev)
    (h1 : s.pdf_doc ≠ some a) (h2 : s.pending_doc ≠ some a)
    (h3 : ∀ e ∈ evs, e.newHandle ≠ some a) :
    (Dark.run s evs).pdf_doc ≠ some a
    ∧ (Dark.run s evs).pending_doc ≠ some a := by
  induction evs generalizing s with
  | nil => exact ⟨h1, h2⟩
  | cons e tl ih =>
      have hstep := darkStep_no_stale a s e h1 h2 (h3 e (by simp))
      have hrun := ih (Dark.step s e) hstep.1 hstep.2
        (fun e2 he2 => h3 e2 (by simp [he2]))
      simpa [Dark.run] using hrun

lemma plainOpenPdf_no_stale (a h : Nat) (s : CtrlState) (path : String)
    (t : Nat) (res : Option PdfStatus)
    (h1 : s.pdf_doc ≠ some a) (hha : h ≠ a) :
    (Plain.openPdf s h path t res).pdf_doc ≠ some a
    ∧ (Plain.openPdf s h path t res).pending_doc ≠ some a := by
  cases res with
  | none =>
      constructor
      · simpa [Plain.openPdf] using h1
      · simp [Plain.openPdf]
  | some st =>
      by_cases hst : st = PdfStatus.ready
      · subst hst
        constructor
        · simpa [Plain.openPdf, Plain.finalize] using hha
        · simp [Plain.openPdf, Plain.finalize]
      · constructor
        · simpa [Plain.openPdf, hst] using h1
        · simpa [Plain.openPdf, hst] using hha

lemma plainPoll_no_stale (a : Nat) (s : CtrlState) (t : Nat)
    (st : PdfStatus) (h1 : s.pdf_doc ≠ some a)
    (h2 : s.pending_doc ≠ some a) :
    (Plain.poll s t st).pdf_doc ≠ some a
    ∧ (Plain.poll s t st).pending_doc ≠ some a := by
  cases hp : s.pending_doc with
  | none =>
      exact ⟨by simpa [Plain.poll, hp] using h1, by simp [Plain.poll, hp]⟩
  | some d =>
      cases hq : s.pending_path with
      | none =>
          exact ⟨by simpa [Plain.poll, hp, hq] using h1,
            by simpa [Plain.poll, hp, hq] using h2⟩
      | some path =>
          have hda : d ≠ a := fun hh => h2 (by rw [hp, hh])
          by_cases hr : st = PdfStatus.ready
          · subst hr
            constructor
            · simpa [Plain.poll, hp, hq, Plain.finalize] using hda
            · simp [Plain.poll, hp, hq, Plain.finalize]
          · by_cases hto : Plain.timeoutMs < t - s.pending_start
            · exact ⟨by simpa [Plain.poll, hp, hq, hr, hto] using h1,
                by simp [Plain.poll, hp, hq, hr, hto]⟩
            · exact ⟨by simpa [Plain.poll, hp, hq, hr, hto] using h1,
                by simpa [Plain.poll, hp, hq, hr, hto] using h2⟩

lemma plainStep_no_stale (a : Nat) (s : CtrlState) (e : Ev)
    (h1 : s.pdf_doc ≠ some a) (h2 : s.pending_doc ≠ some a)
    (h3 : e.newHandle ≠ some a) :
    (Plain.step s e).pdf_doc ≠ some a
    ∧ (Plain.step s e).pending_doc ≠ some a := by
  cases e with
  | openReq h path t res =>
      have hha : h ≠ a := fun hh => h3 (by simp [Ev.newHandle, hh])
      exact plainOpenPdf_no_stale a h s path t res h1 hha
  | tick t st => exact plainPoll_no_stale a s t st h1 h2

lemma plainRun_no_stale (a : Nat) (s : CtrlState) (evs : List Ev)
    (h1 : s.pdf_doc ≠ some a) (h2 : s.pending_doc ≠ some a)
    (h3 : ∀ e ∈ evs, e.newHandle ≠ some a) :
    (Plain.run s evs).pdf_doc ≠ some a
    ∧ (Plain.run s evs).pending_doc ≠ some a := by
  induction evs generalizing s with
  | nil => exact ⟨h1, h2⟩
  | cons e tl ih =>
      have hstep := plainStep_no_stale a s e h1 h2 (h3 e (by simp))
      have hrun := ih (Plain.step s e) hstep.1 hstep.2
        (fun e2 he2 => h3 e2 (by simp [he2]))
      simpa [Plain.run] using hrun

lemma darkOpenPdf_pdf_doc_not_ready (s : CtrlState) (h : Nat)
    (path : String) (t : Nat) (sa : PdfStatus) (hsa : sa ≠ PdfStatus.ready) :
    (Dark.openPdf s h path t (some sa)).pdf_doc = s.pdf_doc := by
  simp [Dark.openPdf, hsa]

lemma plainOpenPdf_pdf_doc_not_ready (s : CtrlState) (h : Nat)
    (path : String) (t : Nat) (sa : PdfStatus) (hsa : sa ≠ PdfStatus.ready) :
    (Plain.openPdf s h path t (some sa)).pdf_doc = s.pdf_doc := by
  simp [Plain.openPdf, hsa]

/-- C1: Supersession invariant.  If `OpenRequested(a)` does not resolve
synchronously (its load call returns a non-ready status) and is followed
by `OpenRequested(b)` with a distinct handle, then — whatever the outcome
of `b`'s load call and whatever sequence of poll ticks and further open
requests with fresh handles follows, with statuses flipping in any order —
neither version's controller ever installs `a`'s handle as the current
document.  Moreover, in both versions a poll tick only ever finalizes the
handle currently stored in the single pending slot. -/
theorem supersession_never_finalizes_superseded (s0 : CtrlState)
    (a b : Nat) (pa pb : String) (ta tb : Nat) (sa : PdfStatus)
    (rb : Option PdfStatus) (evs : List Ev)
    (hfresh : ∀ e ∈ evs, e.newHandle ≠ some a) (hab : b ≠ a)
    (hcur : s0.pdf_doc ≠ some a) (hsa : sa ≠ PdfStatus.ready) :
    (Dark.run (Dark.step (Dark.step s0 (Ev.openReq a pa ta (some sa)))
        (Ev.openReq b pb tb rb)) evs).pdf_doc ≠ some a
    ∧ (Plain.run (Plain.step (Plain.step s0 (Ev.openReq a pa ta (some sa)))
        (Ev.openReq b pb tb rb)) evs).pdf_doc ≠ some a
    ∧ (∀ s t st h2, (Dark.poll s t st).pdf_doc = some h2 →
        s.pdf_doc ≠ some h2 → s.pending_doc = some h2)
    ∧ (∀ s t st h2, (Plain.poll s t st).pdf_doc = some h2 →
        s.pdf_doc ≠ some h2 → s.pending_doc = some h2) := by
  refine ⟨?_, ?_, ?_, ?_⟩
  · have h1 : (Dark.step s0 (Ev.openReq a pa ta (some sa))).pdf_doc
        ≠ some a := by
      rw [show Dark.step s0 (Ev.openReq a pa ta (some sa))
          = Dark.openPdf s0 a pa ta (some sa) from rfl]
      rw [darkOpenPdf_pdf_doc_not_ready s0 a pa ta sa hsa]
      exact hcur
    have h2 := darkOpenPdf_no_stale a b
      (Dark.step s0 (Ev.openReq a pa ta (some sa))) pb tb rb h1 hab
    exact (darkRun_no_stale a _ evs h2.1 h2.2 hfresh).1
  · have h1 : (Plain.step s0 (Ev.openReq a pa ta (some sa))).pdf_doc
        ≠ some a := by
      rw [show Plain.step s0 (Ev.openReq a pa ta (some sa))
          = Plain.openPdf s0 a pa ta (some sa) from rfl]
      rw [plainOpenPdf_pdf_doc_not_ready s0 a pa ta sa hsa]
      exact hcur
    have h2 := plainOpenPdf_no_stale a b
      (Plain.step s0 (Ev.openReq a pa ta (some sa))) pb tb rb h1 hab
    exact (plainRun_no_stale a _ evs h2.1 h2.2 hfresh).1
  · intro s t st h2 hfin hne
    cases hp : s.pending_doc with
    | none => exact absurd (by simpa [Dark.poll, hp] using hfin) hne
    | some d =>
        by_cases hr : st = PdfStatus.ready
        · subst hr
          have : d = h2 := by
            simpa [Dark.poll, hp, Dark.finalize] using hfin
          rw [this]
        · by_cases he : st = PdfStatus.error
          · subst he
            exact absurd (by simpa [Dark.poll, hp, hr] using hfin) hne
          · by_cases hto : Dark.timeoutMs < t - s.pending_start
            · exact absurd
                (by simpa [Dark.poll, hp, hr, he, hto] using hfin) hne
            · exact absurd
                (by simpa [Dark.poll, hp, hr, he, hto] using hfin) hne
  · intro s t st h2 hfin hne
    cases hp : s.pending_doc with
    | none => exact absurd (by simpa [Plain.poll, hp] using hfin) hne
    | some d =>
        cases hq : s.pending_path with
        | none =>
            exact absurd (by simpa [Plain.poll, hp, hq] using hfin) hne
        | some path =>
            by_cases hr : st = PdfStatus.ready
            · subst hr
              have : d = h2 := by
                simpa [Plain.poll, hp, hq, Plain.finalize] using hfin
              rw [this]
            · by_cases hto : Plain.timeoutMs < t - s.pending_start
              · exact absurd
                  (by simpa [Plain.poll, hp, hq, hr, hto] using hfin) hne
              · exact absurd
                  (by simpa [Plain.poll, hp, hq, hr, hto] using hfin) hne

/-- Witness for `supersession_never_finalizes_superseded`: request handle
1, supersede it with handle 2, then let the old handle's status flip to
ready at a poll tick — the old handle is not installed. -/
theorem supersession_witness :
    (Dark.run (Dark.step (Dark.step
        { pdf_doc := none, current_pdf_path := none, pending_doc := none,
          pending_path := none, pending_start := 0, timer_on := false,
          notes_store := [], released := [], msgs := [], status_text := "Ready" }
        (Ev.openReq 1 "/r/a.pdf" 0 (some PdfStatus.loading)))
        (Ev.openReq 2 "/r/b.pdf" 5 (some PdfStatus.loading)))
      [Ev.tick 100 PdfStatus.ready]).pdf_doc ≠ some 1 :=
  (supersession_never_finalizes_superseded
    { pdf_doc := none, current_pdf_path := none, pending_doc := none,
      pending_path := none, pending_start := 0, timer_on := false,
      notes_store := [], released := [], msgs := [], status_text := "Ready" }
    1 2 "/r/a.pdf" "/r/b.pdf" 0 5 PdfStatus.loading
    (some PdfStatus.loading) [Ev.tick 100 PdfStatus.ready]
    (by decide) (by decide) (by decide) (by decide)).1

/-- C2: Timeout bound.  For a pending load whose status is never ready nor
error, in both versions: a poll tick at elapsed time at most the timeout
leaves the state completely unchanged (no failure is declared before the
deadline), while a tick at elapsed time strictly beyond the timeout
releases the pending handle and leaves the current document and path
untouched.  With ticks firing every `intervalMs` after the request, the
first tick past the deadline is tick number `timeoutMs / intervalMs`
(0-based), at elapsed time `(timeoutMs / intervalMs + 1) * intervalMs`,
which lies strictly above `timeoutMs` and at most
`timeoutMs + intervalMs`; no earlier above-deadline tick time exists.
So failure detection happens no earlier than the timeout and no later
than timeout + poll interval. -/
theorem timeout_window (s : CtrlState) (d : Nat) (p : String)
    (hd : s.pending_doc = some d) (hp : s.pending_path = some p) :
    (∀ t st, st ≠ PdfStatus.ready → st ≠ PdfStatus.error →
        t - s.pending_start ≤ Dark.timeoutMs → Dark.poll s t st = s)
    ∧ (∀ t st, st ≠ PdfStatus.ready → st ≠ PdfStatus.error →
        Dark.timeoutMs < t - s.pending_start →
        (Dark.poll s t st).pending_doc = none
        ∧ d ∈ (Dark.poll s t st).released
        ∧ (Dark.poll s t st).pdf_doc = s.pdf_doc
        ∧ (Dark.poll s t st).current_pdf_path = s.current_pdf_path)
    ∧ (∀ t st, st ≠ PdfStatus.ready → st ≠ PdfStatus.error →
        t - s.pending_start ≤ Plain.timeoutMs → Plain.poll s t st = s)
    ∧ (∀ t st, st ≠ PdfStatus.ready → st ≠ PdfStatus.error →
        Plain.timeoutMs < t - s.pending_start →
        (Plain.poll s t st).pending_doc = none
        ∧ d ∈ (Plain.poll s t st).released
        ∧ (Plain.poll s t st).pdf_doc = s.pdf_doc
        ∧ (Plain.poll s t st).current_pdf_path = s.current_pdf_path)
    ∧ (Dark.timeoutMs
        < (Dark.timeoutMs / Dark.intervalMs + 1) * Dark.intervalMs
      ∧ (Dark.timeoutMs / Dark.intervalMs + 1) * Dark.intervalMs
          ≤ Dark.timeoutMs + Dark.intervalMs
      ∧ ∀ k, Dark.timeoutMs < (k + 1) * Dark.intervalMs →
          (Dark.timeoutMs / Dark.intervalMs + 1) * Dark.intervalMs
            ≤ (k + 1) * Dark.intervalMs)
    ∧ (Plain.timeoutMs
        < (Plain.timeoutMs / Plain.intervalMs + 1) * Plain.intervalMs
      ∧ (Plain.timeoutMs / Plain.intervalMs + 1) * Plain.intervalMs
          ≤ Plain.timeoutMs + Plain.intervalMs
      ∧ ∀ k, Plain.timeoutMs < (k + 1) * Plain.intervalMs →
          (Plain.timeoutMs / Plain.intervalMs + 1) * Plain.intervalMs
            ≤ (k + 1) * Plain.intervalMs) := by
  refine ⟨?_, ?_, ?_, ?_, ⟨by decide, by decide, ?_⟩,
    ⟨by decide, by decide, ?_⟩⟩
  · intro t st hr he hle
    simp [Dark.poll, hd, hr, he, Nat.not_lt.mpr hle]
  · intro t st hr he hgt
    refine ⟨?_, ?_, ?_, ?_⟩ <;> simp [Dark.poll, hd, hr, he, hgt]
  · intro t st hr he hle
    simp [Plain.poll, hd, hp, hr, Nat.not_lt.mpr hle]
  · intro t st hr he hgt
    refine ⟨?_, ?_, ?_, ?_⟩ <;> simp [Plain.poll, hd, hp, hr, hgt]
  · intro k hk
    simp only [Dark.timeoutMs, Dark.intervalMs] at hk ⊢
    omega
  · intro k hk
    simp only [Plain.timeoutMs, Plain.intervalMs] at hk ⊢
    omega

/-- Witness for `timeout_window`: a pending load started at time 0 with
status still loading fails at the tick at 10100 ms in the dark version. -/
theorem timeout_window_witness :
    (Dark.poll
      { pdf_doc := some 7, current_pdf_path := some "/r/old.pdf",
        pending_doc := some 9, pending_path := some "/r/new.pdf",
        pending_start := 0, timer_on := true, notes_store := [],
        released := [], msgs := [], status_text := "Loading" }
      10100 PdfStatus.loading).pending_doc = none :=
  ((timeout_window
    { pdf_doc := some 7, current_pdf_path := some "/r/old.pdf",
      pending_doc := some 9, pending_path := some "/r/new.pdf",
      pending_start := 0, timer_on := true, notes_store := [],
      released := [], msgs := [], status_text := "Loading" }
    9 "/r/new.pdf" rfl rfl).2.1 10100 PdfStatus.loading
    (by decide) (by decide) (by decide)).1

/-- C3 counterexample: in the 10 s version, a timeout failure is not
reported to the user at all — at the poll tick past the deadline the
pending handle is released (`deleteLater`, slot cleared) but no message
box is shown and the status text is left at its previous value, refuting
the claim that every load failure produces a user-visible message. -/
theorem failure_report_counterexample :
    (Dark.poll
      { pdf_doc := some 7, current_pdf_path := some "/r/old.pdf",
        pending_doc := some 9, pending_path := some "/r/new.pdf",
        pending_start := 0, timer_on := true, notes_store := [],
        released := [], msgs := [], status_text := "Loading: new.pdf..." }
      10101 PdfStatus.loading).pending_doc = none
    ∧ (Dark.poll
      { pdf_doc := some 7, current_pdf_path := some "/r/old.pdf",
        pending_doc := some 9, pending_path := some "/r/new.pdf",
        pending_start := 0, timer_on := true, notes_store := [],
        released := [], msgs := [], status_text := "Loading: new.pdf..." }
      10101 PdfStatus.loading).released = [9]
    ∧ (Dark.poll
      { pdf_doc := some 7, current_pdf_path := some "/r/old.pdf",
        pending_doc := some 9, pending_path := some "/r/new.pdf",
        pending_start := 0, timer_on := true, notes_store := [],
        released := [], msgs := [], status_text := "Loading: new.pdf..." }
      10101 PdfStatus.loading).msgs = []
    ∧ (Dark.poll
      { pdf_doc := some 7, current_pdf_path := some "/r/old.pdf",
        pending_doc := some 9, pending_path := some "/r/new.pdf",
        pending_start := 0, timer_on := true, notes_store := [],
        released := [], msgs := [], status_text := "Loading: new.pdf..." }
      10101 PdfStatus.loading).status_text = "Loading: new.pdf..." := by
  decide

/-- C3 amended: every load failure leaves the previously current document
handle, current path and notes store unchanged, but reporting and release
differ by version.  In the 12 s version, a synchronous load-call exception
and a timeout both show a user-visible message — the timeout message
includes the 12.0 s bound and the file path — release the pending handle
and clear the pending slot; an explicit error status has no dedicated
branch: before the deadline it leaves the state unchanged, and past the
deadline it is reported through the timeout branch like any other
non-ready status.  In the 10 s
version, only the synchronous load-call exception shows a message, and it
leaves the new handle in the pending slot; an explicit error status
silently drops the pending slot without releasing the handle, and a
timeout silently releases the handle and drops the slot, neither with any
message or status-text change. -/
theorem failure_report_amended (s : CtrlState) (d h t : Nat)
    (p path : String) (st : PdfStatus) (hd : s.pending_doc = some d)
    (hp : s.pending_path = some p) (hr : st ≠ PdfStatus.ready) :
    ((Dark.openPdf s h path t none).msgs
        = ("Load failed: " ++ path) :: s.msgs
      ∧ (Dark.openPdf s h path t none).pending_doc = some h
      ∧ (Dark.openPdf s h path t none).pdf_doc = s.pdf_doc
      ∧ (Dark.openPdf s h path t none).current_pdf_path
          = s.current_pdf_path
      ∧ (Dark.openPdf s h path t none).notes_store = s.notes_store)
    ∧ ((Dark.poll s t PdfStatus.error).pending_doc = none
      ∧ (Dark.poll s t PdfStatus.error).msgs = s.msgs
      ∧ (Dark.poll s t PdfStatus.error).released = s.released
      ∧ (Dark.poll s t PdfStatus.error).status_text = s.status_text
      ∧ (Dark.poll s t PdfStatus.error).pdf_doc = s.pdf_doc
      ∧ (Dark.poll s t PdfStatus.error).current_pdf_path
          = s.current_pdf_path
      ∧ (Dark.poll s t PdfStatus.error).notes_store = s.notes_store)
    ∧ (st ≠ PdfStatus.error → Dark.timeoutMs < t - s.pending_start →
        (Dark.poll s t st).pending_doc = none
        ∧ (Dark.poll s t st).released = d :: s.released
        ∧ (Dark.poll s t st).msgs = s.msgs
        ∧ (Dark.poll s t st).status_text = s.status_text
        ∧ (Dark.poll s t st).pdf_doc = s.pdf_doc
        ∧ (Dark.poll s t st).current_pdf_path = s.current_pdf_path
        ∧ (Dark.poll s t st).notes_store = s.notes_store)
    ∧ ((Plain.openPdf s h path t none).msgs
        = ("Load call failed: " ++ path) :: s.msgs
      ∧ (Plain.openPdf s h path t none).pending_doc = none
      ∧ (Plain.openPdf s h path t none).released = h :: s.released
      ∧ (Plain.openPdf s h path t none).pdf_doc = s.pdf_doc
      ∧ (Plain.openPdf s h path t none).current_pdf_path
          = s.current_pdf_path
      ∧ (Plain.openPdf s h path t none).notes_store = s.notes_store)
    ∧ (Plain.timeoutMs < t - s.pending_start →
        (Plain.poll s t st).msgs = Plain.timeoutMsg st p :: s.msgs
        ∧ Plain.timeoutMsg st p
            = "PDF load timeout after 12.0s (status=" ++ statusStr st
              ++ "). File: " ++ p
        ∧ (Plain.poll s t st).pending_doc = none
        ∧ (Plain.poll s t st).released = d :: s.released
        ∧ (Plain.poll s t st).status_text = "Error opening PDF"
        ∧ (Plain.poll s t st).pdf_doc = s.pdf_doc
        ∧ (Plain.poll s t st).current_pdf_path = s.current_pdf_path
        ∧ (Plain.poll s t st).notes_store = s.notes_store)
    ∧ (t - s.pending_start ≤ Plain.timeoutMs →
        Plain.poll s t PdfStatus.error = s) := by
  refine ⟨?_, ?_, fun he hto => ?_, ?_, fun hto => ?_, fun hle => ?_⟩
  · refine ⟨?_, ?_, ?_, ?_, ?_⟩ <;> simp [Dark.openPdf]
  · refine ⟨?_, ?_, ?_, ?_, ?_, ?_, ?_⟩ <;> simp [Dark.poll, hd]
  · refine ⟨?_, ?_, ?_, ?_, ?_, ?_, ?_⟩ <;>
      simp [Dark.poll, hd, hr, he, hto]
  · refine ⟨?_, ?_, ?_, ?_, ?_, ?_⟩ <;> simp [Plain.openPdf]
  · refine ⟨?_, rfl, ?_, ?_, ?_, ?_, ?_, ?_⟩ <;>
      simp [Plain.poll, hd, hp, hr, hto]
  · simp [Plain.poll, hd, hp, Nat.not_lt.mpr hle]

/-- Witness for `failure_report_amended`: a pending load whose status is
stuck at `Error` is reported at the tick past the 12 s deadline in the
plain version (the error status has no dedicated branch and is handled by
the timeout check). -/
theorem failure_report_witness :
    (Plain.poll
      { pdf_doc := some 7, current_pdf_path := some "/r/old.pdf",
        pending_doc := some 9, pending_path := some "/r/new.pdf",
        pending_start := 0, timer_on := true, notes_store := [],
        released := [], msgs := [], status_text := "Opening: new.pdf" }
      12150 PdfStatus.error).msgs
      = ["PDF load timeout after 12.0s (status=Status.Error). File: /r/new.pdf"] := by
  have hw := (failure_report_amended
    { pdf_doc := some 7, current_pdf_path := some "/r/old.pdf",
      pending_doc := some 9, pending_path := some "/r/new.pdf",
      pending_start := 0, timer_on := true, notes_store := [],
      released := [], msgs := [], status_text := "Opening: new.pdf" }
    9 3 12150 "/r/new.pdf" "/x.pdf" PdfStatus.error rfl rfl
    (by decide)).2.2.2.2.1 (by decide)
  rw [hw.1, hw.2.1]
  rfl

/-- C7 counterexample: with `pageCount=42`, scroll `value=50`,
`maximum=100`, the 10 s version's status line is
"Page 22 / 42 — doc.pdf" — the computed page is
`floor(50/100*42)+1 = 22`, not 21, and the slash is space-padded — so the
claimed string "Page 21/42 — doc.pdf" is wrong. -/
theorem status_text_counterexample :
    darkUpdateStatus 42 50 100 "doc.pdf" ≠ some "Page 21/42 — doc.pdf"
    ∧ darkUpdateStatus 42 50 100 "doc.pdf"
        = some "Page 22 / 42 — doc.pdf" := by
  constructor
  · decide
  · decide

/-- C7 amended: after a 42-page document loads, the 10 s version's status
at scroll `value=0, maximum=100` reads "Page 1 / 42 — <name>" and at
`value=50` reads "Page 22 / 42 — <name>"; in general the displayed page
is `floor(value/maximum * pageCount) + 1` clamped to `[1, pageCount]`.
The 12 s version renders the same page 22 in its own format
"✅ Ready: <breadcrumb> — Page 22/42" (clamping 0-based to
`[0, pageCount-1]` before adding 1). -/
theorem status_text_amended (total value maxv : Nat) (path : String)
    (ht : 0 < total) (hmv : 0 < maxv) :
    darkUpdateStatus total value maxv path =
      some ("Page "
        ++ toString (min (max 1 (value * total / maxv + 1)) total)
        ++ " / " ++ toString total ++ " — " ++ basename path)
    ∧ darkUpdateStatus 42 0 100 "doc.pdf" = some "Page 1 / 42 — doc.pdf"
    ∧ darkUpdateStatus 42 50 100 "doc.pdf"
        = some "Page 22 / 42 — doc.pdf"
    ∧ plainUpdateStatus none 42 50 100 "sub / doc.pdf"
        = "✅ Ready: sub / doc.pdf — Page 22/42" := by
  refine ⟨?_, by decide, by decide, by decide⟩
  have ht' : total ≠ 0 := Nat.pos_iff_ne_zero.mp ht
  simp [darkUpdateStatus, ht', hmv]

/-- Witness for `status_text_amended` at the claim's scenario values. -/
theorem status_text_witness :
    darkUpdateStatus 42 50 100 "doc.pdf"
      = some "Page 22 / 42 — doc.pdf" :=
  (status_text_amended 42 50 100 "doc.pdf" (by decide) (by decide)).2.2.1

/-- C8 counterexample: in the 10 s version, clicking a note with page 2 on
a 2-page document with scroll maximum 100 sets the scroll value to
`floor((2-1)/2 * 100) = 50`, while the claimed fraction
`(p-1)/max(1, pageCount-1)` would give 100; no direct page-jump is used.
So the claim's disjunction fails at this input. -/
theorem note_click_counterexample :
    darkNoteClick 2 2 100 = NavAction.scrollTo 50
    ∧ (2 - 1) * 100 / max 1 (2 - 1) = 100
    ∧ (50 : Nat) ≠ 100 := by
  decide

/-- C8 amended: in the 12 s version, clicking a note with page `p` while a
document with positive page count is current either jumps directly to the
0-based page `p-1` via the toolkit's `setPage`, or (when that call is
unavailable) sets the scroll value to
`floor((p-1)/max(1, pageCount-1) * maximum)`, and in both cases schedules
a status-reporter re-run 60 ms later.  In the 10 s version there is no
direct page-jump: the scroll value is set to
`floor((p-1)/pageCount * maximum)` and the status reporter is triggered
only through the scrollbar's value-changed signal. -/
theorem note_click_amended (setPageOk : Bool) (p total maxv : Nat)
    (ht : 0 < total) :
    plainNoteClick setPageOk p total maxv =
      ((if setPageOk then NavAction.jumpTo (p - 1)
        else NavAction.scrollTo ((p - 1) * maxv / max 1 (total - 1))),
       true)
    ∧ darkNoteClick p total maxv
        = NavAction.scrollTo ((p - 1) * maxv / total) := by
  constructor
  · cases setPageOk <;> simp [plainNoteClick, ht]
  · simp [darkNoteClick, ht]

/-- Witness for `note_click_amended`: the plain version's scroll fallback
at page 5 of a 10-page document with scroll maximum 900. -/
theorem note_click_witness :
    plainNoteClick false 5 10 900 = (NavAction.scrollTo 400, true) := by
  have hw := (note_click_amended false 5 10 900 (by decide)).1
  rw [hw]
  decide

end DatasheetVisualizer
